import Mathlib

/-!
Verification of the rule-based business-plan scoring engine of
`src/ai_analysis/src/analyzers/analyzer.py` (class `UnifiedBusinessPlanAnalyzer`).

Modelling conventions:
- Python `str` is modelled as Lean `String` (a list of Unicode scalar values,
  matching Python's code-point semantics for `len`, indexing and slicing).
- Python `float` scores are modelled as exact rationals (`ℚ`).  All score
  arithmetic in the source multiplies small counts by constants such as `0.3`
  and takes `min`s; the claims under study concern bounds and exact
  proportionality, which are insensitive to the float/rational distinction.
  The `%.1f` string formatting used inside recommendation bodies is modelled
  by rounding the rational to one decimal (half-to-even, as Python's `format`
  rounds), in `fmt1`.
- The Python feature dictionary built by `_perform_comprehensive_analysis` is
  modelled as an association list from the literal string keys to values, so
  that `dict.get(key, 0)` (including lookups of *absent* keys such as
  `criterion_3_terms`) is modelled faithfully by `getFeature`.
- `str.lower()` is modelled per-character with `Char.toLower` (ASCII case
  mapping); every keyword searched by the engine is already lower-case ASCII
  (plus the pre-lowercased `è` of `problème`), so this only diverges from
  Python on non-ASCII upper-case input characters, which no claim depends on.
- The wall-clock metadata fields `evaluation_date` and `processing_time` of
  `BusinessPlanAnalysis` are omitted: they are timestamps with no logic.
-/

/-- One sub-criterion entry of `EvaluationCriterion.sub_criteria`
(the Python code keeps these as dicts with keys name/points/description). -/
structure SubCriterion where
  name : String
  points : Nat
  description : String
deriving DecidableEq, Inhabited, Repr

/-- `EvaluationCriterion` dataclass from `analyzer.py`. -/
structure EvaluationCriterion where
  id : Nat
  name : String
  max_points : Nat
  description : String
  sub_criteria : List SubCriterion
deriving DecidableEq, Inhabited, Repr

/-- One entry of `EvaluationResult.sub_scores`
(a Python dict with keys name/max_points/earned_points/description). -/
structure SubScore where
  name : String
  max_points : Nat
  earned_points : ℚ
  description : String
deriving DecidableEq, Inhabited, Repr

/-- `EvaluationResult` dataclass from `analyzer.py`. -/
structure EvaluationResult where
  criterion_id : Nat
  criterion_name : String
  max_points : Nat
  earned_points : ℚ
  reasoning : String
  sub_scores : List SubScore
deriving DecidableEq, Inhabited, Repr

/-- `BusinessPlanAnalysis` dataclass from `analyzer.py`
(without the two wall-clock metadata fields, see header). -/
structure BusinessPlanAnalysis where
  total_score : ℚ
  max_possible_score : Nat
  threshold : Nat
  is_eligible : Bool
  criteria_results : List EvaluationResult
  summary : String
  recommendations : List String
  analysis_method : String
  confidence_score : ℚ
deriving DecidableEq, Inhabited, Repr

/-- A value stored in the feature dictionary built by
`_perform_comprehensive_analysis` (ints and one bool, `has_sections`). -/
inductive FeatureValue where
  | nat (n : Nat)
  | bool (b : Bool)
deriving DecidableEq, Inhabited, Repr

/-- The feature dictionary (`analysis_data` in the source), modelled as an
association list keyed by the literal strings used in the source. -/
abbrev AnalysisData := List (String × FeatureValue)

/-- Numeric view of a feature value; Python treats `True`/`False` as `1`/`0`
in arithmetic contexts. -/
def FeatureValue.toNat : FeatureValue → Nat
  | .nat n => n
  | .bool b => if b then 1 else 0

/-- `analysis_data.get(key, 0)` from the source: dictionary lookup with
default `0` for absent keys.  (The source also uses `analysis_data[key]`
for keys that are always present; both are modelled by this lookup.) -/
def getFeature (d : AnalysisData) (k : String) : Nat :=
  match d.lookup k with
  | some v => v.toNat
  | none => 0

/-! ### Text primitives

These model the Python string/regex operations used by
`_perform_comprehensive_analysis`, `_count_terms` and `_check_sections`,
on `List Char` (the `.data` of a `String`). -/

/-- `str.lower()`, per character (ASCII case mapping, see header). -/
def pyLower (s : List Char) : List Char := s.map Char.toLower

/-- Left-to-right scan counting non-overlapping occurrences of `sub`:
after a match the next `sub.length - 1` characters (tracked by `skip`)
belong to the match and are not rescanned. -/
def countSubstrGo (sub : List Char) (skip : Nat) : List Char → Nat
  | [] => 0
  | c :: rest =>
    match skip with
    | k + 1 => countSubstrGo sub k rest
    | 0 =>
      if sub ≠ [] ∧ sub.isPrefixOf (c :: rest) then
        1 + countSubstrGo sub (sub.length - 1) rest
      else
        countSubstrGo sub 0 rest

/-- `text.count(sub)` for a non-empty `sub`: number of non-overlapping
occurrences, scanning left to right (Python `str.count` semantics). -/
def countSubstr (sub : List Char) (s : List Char) : Nat :=
  countSubstrGo sub 0 s

/-- `_count_terms`: `sum(text.count(term) for term in terms)`. -/
def countTerms (text : List Char) (terms : List String) : Nat :=
  (terms.map (fun t => countSubstr t.data text)).sum

/-- Counts the maximal runs of characters satisfying `p` (used to model
`len(text.split())`, `len(re.split(r'[.!?]+', text))` and
`len(re.findall(r'\d+', text))`). `inRun` records whether the previous
character satisfied `p`. -/
def countRunsGo (p : Char → Bool) (inRun : Bool) : List Char → Nat
  | [] => 0
  | c :: rest =>
    if p c then (if inRun then 0 else 1) + countRunsGo p true rest
    else countRunsGo p false rest

/-- Number of maximal runs of characters satisfying `p`. -/
def countRuns (p : Char → Bool) (s : List Char) : Nat := countRunsGo p false s

/-- `len(text.split())`: number of whitespace-separated tokens
(maximal runs of non-whitespace characters). -/
def wordCount (s : List Char) : Nat := countRuns (fun c => !c.isWhitespace) s

/-- Is `c` one of the sentence delimiters of the regex `[.!?]+`? -/
def isSentenceDelim (c : Char) : Bool := c = '.' || c = '!' || c = '?'

/-- `len(re.split(r'[.!?]+', text))`: splitting on maximal delimiter runs
always yields (number of runs) + 1 segments, counting empty segments —
in particular the empty string yields 1 (one empty segment). -/
def sentenceCount (s : List Char) : Nat := countRuns isSentenceDelim s + 1

/-- Left-to-right scan for `text.split(sep)`: `acc` holds the current
segment (reversed); after a separator match the remaining
`sep.length - 1` separator characters (tracked by `skip`) are consumed
without being rescanned. -/
def splitOnSepGo (sep : List Char) (skip : Nat) (acc : List Char) :
    List Char → List (List Char)
  | [] => [acc.reverse]
  | c :: rest =>
    match skip with
    | k + 1 => splitOnSepGo sep k acc rest
    | 0 =>
      if sep ≠ [] ∧ sep.isPrefixOf (c :: rest) then
        acc.reverse :: splitOnSepGo sep (sep.length - 1) [] rest
      else
        splitOnSepGo sep 0 (c :: acc) rest

/-- `text.split(sep)` for a fixed non-empty separator (Python `str.split`
with an explicit separator: greedy left-to-right scan for non-overlapping
separator occurrences, keeping empty segments). -/
def splitOnSep (sep : List Char) (s : List Char) : List (List Char) :=
  splitOnSepGo sep 0 [] s

/-- `len([p for p in text.split('\n\n') if p.strip()])`: segments between
double newlines that contain at least one non-whitespace character
(`p.strip()` is truthy iff `p` has a non-whitespace character). -/
def paragraphCount (s : List Char) : Nat :=
  ((splitOnSep ['\n', '\n'] s).filter
    (fun p => p.any (fun c => !c.isWhitespace))).length

/-- `len(re.findall(r'\d+%', text))`: each match is a digit run directly
followed by `%`; matches never overlap, so this equals the number of `%`
characters immediately preceded by a digit. -/
def countPercentages : List Char → Nat
  | a :: b :: rest =>
    (if a.isDigit ∧ b = '%' then 1 else 0) + countPercentages (b :: rest)
  | _ => 0

/-- Is `c` one of the currency symbols of the regex `[$€£]`? -/
def isCurrencySym (c : Char) : Bool := c = '$' || c = '€' || c = '£'

/-- Does the list start with a character of the regex class `[\d,]`? -/
def startsAmount : List Char → Bool
  | [] => false
  | c :: _ => c.isDigit || c = ','

/-- `len(re.findall(r'[$€£]\s*[\d,]+', text))`: a currency symbol, optional
whitespace, then at least one digit-or-comma.  A match's tail contains no
currency symbol, so matches are exactly the currency symbols from which,
after skipping whitespace, a digit or comma follows. -/
def countCurrency : List Char → Nat
  | [] => 0
  | c :: rest =>
    (if isCurrencySym c ∧ startsAmount (rest.dropWhile Char.isWhitespace)
     then 1 else 0) + countCurrency rest

/-- Substring containment, `sub in s` on Python strings. -/
def containsSub (sub : List Char) : List Char → Bool
  | [] => sub.isEmpty
  | c :: rest => sub.isPrefixOf (c :: rest) || containsSub sub rest

/-- The section-header indicators of `_check_sections`. -/
def sectionIndicators : List String :=
  ["executive summary", "market analysis", "financial", "business model",
   "strategy"]

/-- `_check_sections`: any indicator a substring of the lower-cased text. -/
def checkSections (text : List Char) : Bool :=
  sectionIndicators.any (fun ind => containsSub ind.data (pyLower text))

/-! ### Keyword lexicon (`_load_business_keywords`) -/

/-- `business_keywords["financial"]`. -/
def financialKeywords : List String :=
  ["revenue", "profit", "cost", "funding", "investment", "financial",
   "budget", "cash flow", "roi"]

/-- `business_keywords["market"]`. -/
def marketKeywords : List String :=
  ["market", "customer", "target", "segment", "competition", "industry",
   "demand", "supply"]

/-- `business_keywords["strategy"]`. -/
def strategyKeywords : List String :=
  ["strategy", "plan", "goal", "objective", "milestone", "timeline",
   "execution", "implementation"]

/-- `business_keywords["team"]`. -/
def teamKeywords : List String :=
  ["team", "founder", "management", "experience", "expertise", "leadership",
   "staff"]

/-- `business_keywords["product"]`. -/
def productKeywords : List String :=
  ["product", "service", "solution", "innovation", "technology", "feature",
   "development"]

/-- `business_keywords["risk"]`. -/
def riskKeywords : List String :=
  ["risk", "threat", "challenge", "mitigation", "contingency", "uncertainty",
   "vulnerability"]

/-- `business_keywords["professional"]`. -/
def professionalKeywords : List String :=
  ["analysis", "research", "methodology", "framework", "assessment",
   "evaluation", "metrics", "kpi"]

/-- `business_keywords["positive"]`. -/
def positiveKeywords : List String :=
  ["strong", "excellent", "innovative", "unique", "competitive", "scalable",
   "profitable", "growth"]

/-- `business_keywords["negative"]`. -/
def negativeKeywords : List String :=
  ["weak", "poor", "limited", "risky", "unclear", "uncertain", "difficult",
   "challenging"]

/-- `_perform_comprehensive_analysis`: the feature dictionary, with exactly
the keys the source constructs (note: no `criterion_<id>_terms` keys). -/
def performComprehensiveAnalysis (text : String) : AnalysisData :=
  let t := text.data
  let text_lower := pyLower t
  [("text_length", .nat t.length),
   ("word_count", .nat (wordCount t)),
   ("sentence_count", .nat (sentenceCount t)),
   ("paragraph_count", .nat (paragraphCount t)),
   ("financial_terms", .nat (countTerms text_lower financialKeywords)),
   ("market_terms", .nat (countTerms text_lower marketKeywords)),
   ("strategy_terms", .nat (countTerms text_lower strategyKeywords)),
   ("team_terms", .nat (countTerms text_lower teamKeywords)),
   ("product_terms", .nat (countTerms text_lower productKeywords)),
   ("risk_terms", .nat (countTerms text_lower riskKeywords)),
   ("has_sections", .bool (checkSections t)),
   ("has_numbers", .nat (countRuns Char.isDigit t)),
   ("has_percentages", .nat (countPercentages t)),
   ("has_currency", .nat (countCurrency t)),
   ("professional_terms", .nat (countTerms text_lower professionalKeywords)),
   ("positive_sentiment", .nat (countTerms text_lower positiveKeywords)),
   ("negative_sentiment", .nat (countTerms text_lower negativeKeywords))]

/-! ### The 12 evaluation criteria (`_initialize_criteria`) -/

/-- Criterion 1 of `_initialize_criteria`. -/
def crit1 : EvaluationCriterion :=
  ⟨1, "Équipe", 10, "Évaluation de l\x27équipe fondatrice",
   [⟨"Équipe fondatrice identifiée", 3,
     "L\x27équipe fondatrice est-elle clairement identifiée ?"⟩,
    ⟨"Compétences complémentaires", 4,
     "Compétences techniques, business et marketing complémentaires ?"⟩,
    ⟨"Expérience sectorielle", 3,
     "Expérience pertinente dans le secteur d\x27activité ?"⟩]⟩

/-- Criterion 2 of `_initialize_criteria`. -/
def crit2 : EvaluationCriterion :=
  ⟨2, "Problématique identifiée", 10,
   "Évaluation de la problématique identifiée",
   [⟨"Problématique réelle et bien définie", 5,
     "La problématique est-elle réelle et bien définie ?"⟩,
    ⟨"Données validantes", 5,
     "Données validant l\x27existence de cette problématique ?"⟩]⟩

/-- Criterion 3 of `_initialize_criteria`. -/
def crit3 : EvaluationCriterion :=
  ⟨3, "Solution actuelle sur le marché", 5,
   "Connaissance des solutions existantes",
   [⟨"Connaissance des solutions", 3,
     "Connaissance claire des solutions existantes ?"⟩,
    ⟨"Limites identifiées", 2,
     "Limites de ces solutions bien identifiées ?"⟩]⟩

/-- Criterion 4 of `_initialize_criteria`. -/
def crit4 : EvaluationCriterion :=
  ⟨4, "Solution proposée & Valeur ajoutée", 15,
   "Évaluation de la solution et de sa valeur ajoutée",
   [⟨"Solution expliquée clairement", 5,
     "La solution est-elle expliquée clairement ?"⟩,
    ⟨"Innovation", 5,
     "Innovation par rapport aux solutions existantes ?"⟩,
    ⟨"Impact concret", 5,
     "Impact ou bénéfice concret pour la clientèle ?"⟩]⟩

/-- Criterion 5 of `_initialize_criteria`. -/
def crit5 : EvaluationCriterion :=
  ⟨5, "Feuille de route du produit/service", 5,
   "Plan de développement et délais",
   [⟨"Plan de développement", 3,
     "Existence d\x27un plan de développement (MVP, phases futures) ?"⟩,
    ⟨"Délais réalistes", 2,
     "Délais de mise en œuvre réalistes ?"⟩]⟩

/-- Criterion 6 of `_initialize_criteria`. -/
def crit6 : EvaluationCriterion :=
  ⟨6, "Clientèle ciblée", 5,
   "Définition et taille du marché cible",
   [⟨"Segment bien défini", 3,
     "Le segment de clientèle est-il bien défini et cohérent ?"⟩,
    ⟨"Données quantitatives", 2,
     "Taille du marché ou données quantitatives disponibles ?"⟩]⟩

/-- Criterion 7 of `_initialize_criteria`. -/
def crit7 : EvaluationCriterion :=
  ⟨7, "Concurrents", 5, "Analyse de la concurrence",
   [⟨"Analyse des concurrents", 3,
     "Analyse des concurrents bien faite (acteurs clés identifiés) ?"⟩,
    ⟨"Compréhension du marché", 2,
     "Compréhension des parts de marché ou des concurrents directs/indirects ?"⟩]⟩

/-- Criterion 8 of `_initialize_criteria`. -/
def crit8 : EvaluationCriterion :=
  ⟨8, "Différenciation", 10, "Avantage concurrentiel",
   [⟨"Avantage concurrentiel", 5,
     "Avantage concurrentiel clairement énoncé ?"⟩,
    ⟨"Difficilement réplicable", 5,
     "Avantage difficilement réplicable à court terme ?"⟩]⟩

/-- Criterion 9 of `_initialize_criteria`. -/
def crit9 : EvaluationCriterion :=
  ⟨9, "Stratégie de conquête du marché", 10, "Stratégie go-to-market",
   [⟨"Stratégie go-to-market", 5,
     "Stratégie de go-to-market précise (canaux de vente, communication) ?"⟩,
    ⟨"Partenariats prévus", 3,
     "Premiers partenariats ou démarches commerciales prévues ?"⟩,
    ⟨"Stratégie de fidélisation", 2,
     "Stratégie de fidélisation ou de croissance ?"⟩]⟩

/-- Criterion 10 of `_initialize_criteria`. -/
def crit10 : EvaluationCriterion :=
  ⟨10, "Modèle de business", 10,
   "Modèle économique et génération de revenus",
   [⟨"Modèle économique clair", 5,
     "Modèle économique clair (B2B, B2C, SaaS, abonnement, etc.) ?"⟩,
    ⟨"Génération de revenus", 5,
     "Logique de génération de revenus réaliste ?"⟩]⟩

/-- Criterion 11 of `_initialize_criteria`. -/
def crit11 : EvaluationCriterion :=
  ⟨11, "Financements détaillés", 10,
   "Plan financier et besoins de financement",
   [⟨"P&L", 5, "Mise en place d\x27un P&L ?"⟩,
    ⟨"Besoins de financement", 3,
     "Estimation des besoins de financement ?"⟩,
    ⟨"Sources de financement", 2,
     "Sources de financement prévues ?"⟩]⟩

/-- Criterion 12 of `_initialize_criteria`. -/
def crit12 : EvaluationCriterion :=
  ⟨12, "Statut juridique de l\x27entreprise", 5,
   "Statut juridique et conformité légale",
   [⟨"Statut juridique", 3, "Statut juridique actuel ou prévu ?"⟩,
    ⟨"Conformité légale", 2,
     "Conformité aux exigences légales pour l\x27activité visée ?"⟩]⟩

/-- `_initialize_criteria`: the fixed list of 12 criteria
(assigned to `self.criteria` in `__init__`). -/
def initializeCriteria : List EvaluationCriterion :=
  [crit1, crit2, crit3, crit4, crit5, crit6, crit7, crit8, crit9, crit10,
   crit11, crit12]

/-- `self.threshold`, set to `60` in `__init__` (an engine constant). -/
def threshold : Nat := 60

/-- Python's `%.1f` formatting, on the rational modelling the float:
round to one decimal, half to even.  (The integer quotient `num / den`
is the floor for the non-negative scores this is applied to.) -/
def fmt1 (q : ℚ) : String :=
  let x : ℚ := q * 10
  let fl : Int := x.num / x.den
  let fr : ℚ := x - (fl : ℚ)
  let n : Int :=
    if fr < 1 / 2 then fl
    else if 1 / 2 < fr then fl + 1
    else if fl % 2 = 0 then fl else fl + 1
  let m : Nat := n.toNat
  toString (m / 10) ++ "." ++ toString (m % 10)

/-- `_evaluate_criterion_with_rules`: criterion-specific scoring.
Criteria 1, 2, 4, 10, 11 have dedicated heuristics; every other criterion
takes the generic branch, which reads `analysis_data.get("criterion_<id>_terms", 0)`.
Sub-scores distribute the earned points proportionally
(`(team_score / criterion.max_points) * sub["points"]`; in the pipeline
`max_points` is never zero, and `x / 0 = 0` in `ℚ` stands in for the
division that Python would refuse). -/
def evaluateCriterionWithRules (criterion : EvaluationCriterion)
    (text : String) (analysis_data : AnalysisData) : EvaluationResult :=
  let text_lower := pyLower text.data
  let scoreReasoning : ℚ × String :=
    if criterion.id = 1 then
      ((min ((getFeature analysis_data "team_terms" : ℚ) * 0.3)
          (criterion.max_points : ℚ)),
       "Team indicators found: " ++
         toString (getFeature analysis_data "team_terms"))
    else if criterion.id = 2 then
      let problem_indicators :=
        countSubstr "problème".data text_lower +
        countSubstr "problem".data text_lower +
        countSubstr "besoin".data text_lower
      ((min ((problem_indicators : ℚ) * 2) (criterion.max_points : ℚ)),
       "Problem indicators: " ++ toString problem_indicators)
    else if criterion.id = 4 then
      let solution_score :=
        countSubstr "solution".data text_lower +
        countSubstr "innovation".data text_lower
      ((min ((solution_score : ℚ) * 1.5) (criterion.max_points : ℚ)),
       "Solution indicators: " ++ toString solution_score)
    else if criterion.id = 10 then
      let business_score :=
        getFeature analysis_data "financial_terms" +
        (if 0 < getFeature analysis_data "has_currency" then 3 else 0)
      ((min ((business_score : ℚ) * 0.8) (criterion.max_points : ℚ)),
       "Business model indicators: " ++ toString business_score)
    else if criterion.id = 11 then
      let financial_score :=
        getFeature analysis_data "financial_terms" +
        getFeature analysis_data "has_currency" +
        getFeature analysis_data "has_percentages"
      ((min ((financial_score : ℚ) * 0.6) (criterion.max_points : ℚ)),
       "Financial indicators: " ++ toString financial_score)
    else
      let relevant_terms := getFeature analysis_data
        ("criterion_" ++ toString criterion.id ++ "_terms")
      ((min ((relevant_terms : ℚ) * 1.0) (criterion.max_points : ℚ)),
       "Generic scoring based on relevance")
  let team_score := scoreReasoning.1
  let sub_scores := criterion.sub_criteria.map (fun sub =>
    SubScore.mk sub.name sub.points
      ((team_score / (criterion.max_points : ℚ)) * (sub.points : ℚ))
      sub.description)
  EvaluationResult.mk criterion.id criterion.name criterion.max_points
    team_score scoreReasoning.2 sub_scores

/-- `_generate_summary`. -/
def generateSummary (total_score : ℚ) (is_eligible : Bool) : String :=
  if is_eligible then
    "Business plan évalué à " ++ fmt1 total_score ++
      "/100. Score ≥ 60/100. ACCEPTÉ pour l\x27incubation."
  else
    "Business plan évalué à " ++ fmt1 total_score ++
      "/100. Score < 60/100. REFUSÉ pour l\x27incubation. Améliorations nécessaires."

/-! ### Recommendation generation
(`_generate_rule_based_recommendations` and its helpers) -/

/-- One entry of the `weak_criteria` list (a Python dict with keys
id/name/performance/points/max_points). -/
structure WeakCriterion where
  id : Nat
  name : String
  performance : ℚ
  points : ℚ
  max_points : Nat
deriving DecidableEq, Inhabited, Repr

/-- `performance_pct`: `(earned / max) * 100 if max > 0 else 0`. -/
def performancePct (cr : EvaluationResult) : ℚ :=
  if 0 < cr.max_points then
    cr.earned_points / (cr.max_points : ℚ) * 100
  else 0

/-- The dict appended to `weak_criteria` for a weak criterion result. -/
def toWeakCriterion (cr : EvaluationResult) : WeakCriterion :=
  ⟨cr.criterion_id, cr.criterion_name, performancePct cr, cr.earned_points,
   cr.max_points⟩

/-- The `weak_criteria` list: results with performance below 70 percent. -/
def weakCriteriaOf (criteria_results : List EvaluationResult) :
    List WeakCriterion :=
  (criteria_results.filter (fun cr => decide (performancePct cr < 70))).map
    toWeakCriterion

/-- First component of the Python sort key
`(max_points * (70 - performance), max_points)`. -/
def weakKey1 (w : WeakCriterion) : ℚ := (w.max_points : ℚ) * (70 - w.performance)

/-- Second component of the sort key (tie-break on `max_points`). -/
def weakKey2 (w : WeakCriterion) : ℚ := (w.max_points : ℚ)

/-- The comparison of `weak_criteria.sort(key=..., reverse=True)`:
`a` may precede `b` iff `a`'s key is lexicographically at least `b`'s.
A stable sort under this comparison is exactly Python's stable
descending key sort. -/
def weakLe (a b : WeakCriterion) : Bool :=
  decide (weakKey1 b < weakKey1 a ∨
    (weakKey1 a = weakKey1 b ∧ weakKey2 b ≤ weakKey2 a))

/-- `weak_criteria.sort(key=lambda x: (x[...] * (70 - x[...]), x[...]), reverse=True)`. -/
def sortWeak (ws : List WeakCriterion) : List WeakCriterion :=
  ws.mergeSort weakLe

/-- The priority label of `_generate_specific_recommendation`. -/
def priorityOf (w : WeakCriterion) : String :=
  if 10 ≤ w.max_points ∧ w.performance < 40 then "CRITIQUE"
  else if 10 ≤ w.max_points ∨ w.performance < 50 then "HAUTE"
  else if w.performance < 60 then "MOYENNE"
  else "FAIBLE"

/-- The `recommendations_map` of `_generate_specific_recommendation`:
per-criterion-id title and body (the body interpolates the earned points,
`%.1f`-formatted, and the max points). -/
def recommendationTemplate (id : Nat) (pts : ℚ) (mx : Nat) :
    Option (String × String) :=
  let score := fmt1 pts ++ "/" ++ toString mx
  match id with
  | 1 => some ("Renforcement de l\x27équipe fondatrice",
      "Votre équipe score " ++ score ++
      ". Identifiez précisément les compétences manquantes (technique, commercial, secteur). Recrutez un co-fondateur expérimenté ou constituez un advisory board avec 3-5 experts sectoriels. Documentez les CV, répartition des parts, et plan de recrutement sur 18 mois.")
  | 2 => some ("Validation de la problématique marché",
      "La problématique identifiée manque de validation (" ++ score ++
      "). Menez 50+ interviews clients, créez des personas détaillés, quantifiez la douleur (coût actuel du problème). Ajoutez des statistiques sectorielles, études de marché, et témoignages clients pour crédibiliser votre analyse.")
  | 3 => some ("Analyse concurrentielle approfondie",
      "L\x27analyse des solutions existantes est insuffisante (" ++ score ++
      "). Mappez 10-15 concurrents directs/indirects, analysez leurs prix, fonctionnalités, faiblesses. Créez une matrice de positionnement et identifiez votre \x27white space\x27 concurrentiel unique.")
  | 4 => some ("Clarification de la proposition de valeur",
      "La solution manque de clarté (" ++ score ++
      "). Reformulez votre value proposition en une phrase claire. Créez un prototype/MVP testable, définissez 3-5 features core, et mesurez l\x27amélioration quantifiable apportée (temps gagné, coût réduit, revenus générés).")
  | 5 => some ("Structuration de la roadmap produit",
      "Le planning de développement nécessite plus de précision (" ++ score ++
      "). Définissez des jalons trimestriels avec métriques de validation (utilisateurs, revenus, fonctionnalités). Planifiez MVP à 3 mois, version Beta à 6 mois, version commerciale à 12 mois avec budgets associés.")
  | 6 => some ("Segmentation et sizing du marché cible",
      "Le marché cible manque de précision (" ++ score ++
      "). Segmentez en 2-3 personas détaillés avec taille, pouvoir d\x27achat, processus de décision. Quantifiez le TAM/SAM/SOM avec sources fiables et stratégie de pénétration progressive.")
  | 7 => some ("Intelligence concurrentielle stratégique",
      "L\x27analyse concurrentielle est incomplète (" ++ score ++
      "). Identifiez les leaders, challengers, et niches players. Analysez leurs levées de fonds, stratégies de croissance, points faibles exploitables. Positionnez-vous sur un axe de différenciation défendable.")
  | 8 => some ("Construction d\x27avantages concurrentiels durables",
      "La différenciation n\x27est pas assez marquée (" ++ score ++
      "). Identifiez 2-3 barrières à l\x27entrée créables (brevets, data network effects, partnerships exclusifs). Développez une stratégie de protection de votre avantage concurrentiel sur 3-5 ans.")
  | 9 => some ("Stratégie de conquête marché structurée",
      "La stratégie commerciale manque de structure (" ++ score ++
      "). Définissez 2-3 canaux d\x27acquisition prioritaires, coût d\x27acquisition client target, stratégie de pricing, et plan de vente sur 24 mois avec objectifs chiffrés par trimestre.")
  | 10 => some ("Optimisation du modèle économique",
      "Le modèle économique nécessite plus de rigueur (" ++ score ++
      "). Clarifiez les sources de revenus, unit economics (LTV/CAC ratio > 3), seuils de rentabilité, et scenarii de scaling. Modélisez 3 hypothèses (conservateur/réaliste/optimiste).")
  | 11 => some ("Plan de financement et projections financières",
      "Le plan financier manque de détails (" ++ score ++
      "). Construisez un P&L sur 3 ans, cash-flow mensuel année 1, besoins de financement détaillés par poste. Identifiez 4-5 sources de financement potentielles avec timeline de levée.")
  | 12 => some ("Structuration juridique et compliance",
      "Les aspects juridiques doivent être formalisés (" ++ score ++
      "). Choisissez la forme juridique optimale (SARL/SAS), répartition du capital, pacte d\x27actionnaires, et compliance sectorielle. Consultez un avocat spécialisé startups.")
  | _ => none

/-- `_generate_specific_recommendation`: `"<priority> - <title>: <content>"`
when the criterion id has a template, `None` otherwise.  (The
`analysis_data` parameter is present but unused in the source too.) -/
def generateSpecificRecommendation (weak_criterion : WeakCriterion)
    (_ : AnalysisData) : Option String :=
  match recommendationTemplate weak_criterion.id weak_criterion.points
      weak_criterion.max_points with
  | some titleContent =>
    some (priorityOf weak_criterion ++ " - " ++ titleContent.1 ++ ": " ++
      titleContent.2)
  | none => none

/-- `_generate_general_recommendations`: up to four generic
recommendations triggered by global thresholds. -/
def generateGeneralRecommendations (analysis_data : AnalysisData)
    (criteria_results : List EvaluationResult) : List String :=
  let total_score := (criteria_results.map (fun cr => cr.earned_points)).sum
  (if getFeature analysis_data "word_count" < 1500 then
    ["MOYENNE - Développement du business plan: Étoffez votre business plan avec plus de détails sur chaque section. Visez 3000-5000 mots avec données quantifiées, études de marché, et projections financières détaillées."]
   else []) ++
  (if getFeature analysis_data "has_currency" = 0 then
    ["HAUTE - Ajout d\x27éléments financiers: Intégrez des données financières concrètes (chiffre d\x27affaires prévisionnel, coûts, investissements requis). Les investisseurs ont besoin de chiffres précis pour évaluer la viabilité."]
   else []) ++
  (if total_score < 40 then
    ["CRITIQUE - Retravailler les fondamentaux: Le score global nécessite une révision complète. Focalisez-vous sur les 4 piliers: équipe, marché, solution, et modèle économique. Consultez un mentor ou expert pour guidance."]
   else []) ++
  (if getFeature analysis_data "professional_terms" < 5 then
    ["MOYENNE - Professionnalisation du discours: Utilisez un vocabulaire business plus précis (KPI, metrics, addressable market, value proposition). Cela démontre votre maturité entrepreneuriale aux investisseurs."]
   else [])

/-- `_generate_rule_based_recommendations`: build the weak-criteria list,
sort it by weighted deficit (descending, stable), take the top 5 specific
recommendations (Python's `if rec:` drops a `None` or empty string),
append the general recommendations when fewer than 3 were produced, and
truncate to at most 6. -/
def generateRuleBasedRecommendations
    (criteria_results : List EvaluationResult)
    (analysis_data : AnalysisData) : List String :=
  let weak_criteria := sortWeak (weakCriteriaOf criteria_results)
  let specific := (weak_criteria.take 5).filterMap (fun w =>
    (generateSpecificRecommendation w analysis_data).filter
      (fun s => decide (s ≠ "")))
  let recommendations :=
    if specific.length < 3 then
      specific ++ generateGeneralRecommendations analysis_data criteria_results
    else specific
  recommendations.take 6

/-- `_analyze_with_rules`: the complete rule-based analysis pipeline. -/
def analyzeWithRules (text : String) : BusinessPlanAnalysis :=
  let analysis_data := performComprehensiveAnalysis text
  let criteria_results := initializeCriteria.map (fun criterion =>
    evaluateCriterionWithRules criterion text analysis_data)
  let total_score := (criteria_results.map (fun r => r.earned_points)).sum
  let is_eligible := decide ((threshold : ℚ) ≤ total_score)
  BusinessPlanAnalysis.mk total_score 100 threshold is_eligible
    criteria_results (generateSummary total_score is_eligible)
    (generateRuleBasedRecommendations criteria_results analysis_data)
    "rule_based_comprehensive" 85

/-! ### Helper lemmas -/

/-- Structural facts about the static criteria grid, checked by evaluation:
sub-criterion points sum to the criterion maximum, the maximum is positive,
and ids run over 1..12. -/
theorem criteria_wf : ∀ c ∈ initializeCriteria,
    (c.sub_criteria.map (fun s => s.points)).sum = c.max_points ∧
    0 < c.max_points ∧ 1 ≤ c.id ∧ c.id ≤ 12 := by decide

/-- Every branch of the evaluator caps the earned points at the criterion
maximum via `min`. -/
theorem earned_le_max (c : EvaluationCriterion) (text : String)
    (d : AnalysisData) :
    (evaluateCriterionWithRules c text d).earned_points ≤ (c.max_points : ℚ) := by
  unfold evaluateCriterionWithRules
  dsimp only
  split_ifs <;> exact min_le_right _ _

/-- Every branch of the evaluator scores a non-negative count times a
non-negative constant, so earned points are non-negative. -/
theorem earned_nonneg (c : EvaluationCriterion) (text : String)
    (d : AnalysisData) :
    0 ≤ (evaluateCriterionWithRules c text d).earned_points := by
  unfold evaluateCriterionWithRules
  dsimp only
  split_ifs <;> exact le_min (by positivity) (by positivity)

/-- When no dedicated heuristic matches the criterion id, the evaluator
takes the generic branch: `min(relevant_terms * 1.0, max_points)` with
`relevant_terms` read from the feature key `criterion_<id>_terms`. -/
theorem generic_branch_eval (c : EvaluationCriterion) (text : String)
    (d : AnalysisData) (h1 : c.id ≠ 1) (h2 : c.id ≠ 2) (h4 : c.id ≠ 4)
    (h10 : c.id ≠ 10) (h11 : c.id ≠ 11) :
    (evaluateCriterionWithRules c text d).earned_points =
      min ((getFeature d ("criterion_" ++ toString c.id ++ "_terms") : ℚ) * 1.0)
        (c.max_points : ℚ) := by
  unfold evaluateCriterionWithRules
  dsimp only
  rw [if_neg h1, if_neg h2, if_neg h4, if_neg h10, if_neg h11]

/-- `_perform_comprehensive_analysis` never produces a key of the form
`criterion_<id>_terms`, so for the generic criteria the lookup defaults
to `0`. -/
theorem getFeature_criterion_terms (text : String) (i : Nat)
    (h : i ∈ ([3, 5, 6, 7, 8, 9, 12] : List Nat)) :
    getFeature (performComprehensiveAnalysis text)
      ("criterion_" ++ toString i ++ "_terms") = 0 := by
  fin_cases h <;> rfl

/-- A criterion of the grid without a dedicated heuristic (id not in
1, 2, 4, 10, 11) evaluates, on the pipeline's feature bag, to zero earned
points: the generic branch reads the feature key `criterion_<id>_terms`,
which `_perform_comprehensive_analysis` never produces, so the lookup
defaults to `0`. -/
theorem earned_eq_zero_of_generic (text : String) (c : EvaluationCriterion)
    (hc : c ∈ initializeCriteria)
    (hid : c.id ∉ ([1, 2, 4, 10, 11] : List Nat)) :
    (evaluateCriterionWithRules c text
      (performComprehensiveAnalysis text)).earned_points = 0 := by
  have hmem : c.id ∈ ([3, 5, 6, 7, 8, 9, 12] : List Nat) := by
    fin_cases hc <;> first | decide | exact absurd (by decide) hid
  have n1 : c.id ≠ 1 := fun h => hid (by simp [h])
  have n2 : c.id ≠ 2 := fun h => hid (by simp [h])
  have n4 : c.id ≠ 4 := fun h => hid (by simp [h])
  have n10 : c.id ≠ 10 := fun h => hid (by simp [h])
  have n11 : c.id ≠ 11 := fun h => hid (by simp [h])
  rw [generic_branch_eval c text _ n1 n2 n4 n10 n11,
    getFeature_criterion_terms text c.id hmem]
  push_cast
  rw [zero_mul]
  exact min_eq_left (by positivity)

/-- The criteria results of the pipeline are exactly the evaluation of the
12 static criteria on the input's feature bag. -/
theorem mem_criteria_results (text : String) {cr : EvaluationResult}
    (h : cr ∈ (analyzeWithRules text).criteria_results) :
    ∃ c ∈ initializeCriteria,
      cr = evaluateCriterionWithRules c text
        (performComprehensiveAnalysis text) := by
  have hres : (analyzeWithRules text).criteria_results =
      initializeCriteria.map (fun c => evaluateCriterionWithRules c text
        (performComprehensiveAnalysis text)) := rfl
  rw [hres] at h
  obtain ⟨c, hc, hcr⟩ := List.mem_map.mp h
  exact ⟨c, hc, hcr.symm⟩

/-- The sub-scores of an evaluation result are the proportional distribution
of the criterion's earned points over its sub-criteria. -/
theorem evaluate_sub_scores (c : EvaluationCriterion) (text : String)
    (d : AnalysisData) :
    (evaluateCriterionWithRules c text d).sub_scores =
      c.sub_criteria.map (fun sub => SubScore.mk sub.name sub.points
        ((evaluateCriterionWithRules c text d).earned_points /
          (c.max_points : ℚ) * (sub.points : ℚ))
        sub.description) := rfl

/-- The total score of the pipeline is bounded by 55: the five criteria
with dedicated heuristics are capped at 10 + 10 + 15 + 10 + 10 points and
all seven generic criteria score zero. -/
theorem totalScore_le_55 (text : String) :
    (analyzeWithRules text).total_score ≤ 55 := by
  have hres : (analyzeWithRules text).total_score =
      ((initializeCriteria.map (fun c => evaluateCriterionWithRules c text
        (performComprehensiveAnalysis text))).map
          (fun r => r.earned_points)).sum := rfl
  rw [hres]
  simp only [initializeCriteria, List.map_cons, List.map_nil, List.sum_cons,
    List.sum_nil, add_zero]
  have h1 : (evaluateCriterionWithRules crit1 text
      (performComprehensiveAnalysis text)).earned_points ≤ (10 : ℚ) :=
    le_trans (earned_le_max crit1 text _) (by norm_num [crit1])
  have h2 : (evaluateCriterionWithRules crit2 text
      (performComprehensiveAnalysis text)).earned_points ≤ (10 : ℚ) :=
    le_trans (earned_le_max crit2 text _) (by norm_num [crit2])
  have h4 : (evaluateCriterionWithRules crit4 text
      (performComprehensiveAnalysis text)).earned_points ≤ (15 : ℚ) :=
    le_trans (earned_le_max crit4 text _) (by norm_num [crit4])
  have h10 : (evaluateCriterionWithRules crit10 text
      (performComprehensiveAnalysis text)).earned_points ≤ (10 : ℚ) :=
    le_trans (earned_le_max crit10 text _) (by norm_num [crit10])
  have h11 : (evaluateCriterionWithRules crit11 text
      (performComprehensiveAnalysis text)).earned_points ≤ (10 : ℚ) :=
    le_trans (earned_le_max crit11 text _) (by norm_num [crit11])
  have g3 := earned_eq_zero_of_generic text crit3 (by decide) (by decide)
  have g5 := earned_eq_zero_of_generic text crit5 (by decide) (by decide)
  have g6 := earned_eq_zero_of_generic text crit6 (by decide) (by decide)
  have g7 := earned_eq_zero_of_generic text crit7 (by decide) (by decide)
  have g8 := earned_eq_zero_of_generic text crit8 (by decide) (by decide)
  have g9 := earned_eq_zero_of_generic text crit9 (by decide) (by decide)
  have g12 := earned_eq_zero_of_generic text crit12 (by decide) (by decide)
  rw [g3, g5, g6, g7, g8, g9, g12]
  linarith

/-- The eligibility flag of the pipeline is always `false`, since the total
never reaches the threshold of 60. -/
theorem isEligible_false (text : String) :
    (analyzeWithRules text).is_eligible = false := by
  have h := totalScore_le_55 text
  have hlt : ¬ ((threshold : ℚ) ≤ (analyzeWithRules text).total_score) := by
    simp only [threshold]
    push_cast
    linarith
  exact decide_eq_false hlt

/-! ### Claim theorems -/

/-- C1: for every input text, the rule-based analysis gives
`earned_points = 0` to every criterion other than ids 1, 2, 4, 10 and 11
(the generic branch reads the feature key `criterion_<id>_terms`, which
`_perform_comprehensive_analysis` never produces), the total score is at
most 55 (= 10 + 10 + 15 + 10 + 10), and `is_eligible` is `false` for
every input. -/
theorem claim_C1_generic_zero_total_bounded (text : String)
    (cr : EvaluationResult)
    (hmem : cr ∈ (analyzeWithRules text).criteria_results)
    (hid : cr.criterion_id ∉ ([1, 2, 4, 10, 11] : List Nat)) :
    cr.earned_points = 0 ∧ (analyzeWithRules text).total_score ≤ 55 ∧
    (analyzeWithRules text).is_eligible = false := by
  obtain ⟨c, hc, rfl⟩ := mem_criteria_results text hmem
  exact ⟨earned_eq_zero_of_generic text c hc hid, totalScore_le_55 text,
    isEligible_false text⟩

/-- Witness for C1: the third criterion result (criterion id 3) of the
analysis of the empty string satisfies the hypotheses, and the theorem's
conclusions hold there. -/
theorem claim_C1_witness :
    (((analyzeWithRules "").criteria_results.getD 2 default ∈
        (analyzeWithRules "").criteria_results) ∧
      ((analyzeWithRules "").criteria_results.getD 2 default).criterion_id ∉
        ([1, 2, 4, 10, 11] : List Nat)) ∧
    (((analyzeWithRules "").criteria_results.getD 2 default).earned_points = 0 ∧
      (analyzeWithRules "").total_score ≤ 55 ∧
      (analyzeWithRules "").is_eligible = false) :=
  ⟨⟨by with_unfolding_all decide, by with_unfolding_all decide⟩,
   claim_C1_generic_zero_total_bounded "" _ (by with_unfolding_all decide) (by with_unfolding_all decide)⟩

/-- C2 counterexample: the claim that the criteria without a dedicated
heuristic are scored by a formula proportional to the word count (scaled
by some positive constant and capped at the criterion maximum) is false:
on the one-word text "a" the generic criterion 3 earns 0 points, while
any positive constant would give `min(1 * k, 5) > 0`. -/
theorem claim_C2_counterexample :
    ¬ ∃ k : ℚ, 0 < k ∧ ∀ (text : String) (c : EvaluationCriterion),
        c ∈ initializeCriteria → c.id ∉ ([1, 2, 4, 10, 11] : List Nat) →
        (evaluateCriterionWithRules c text
          (performComprehensiveAnalysis text)).earned_points =
          min ((wordCount text.data : ℚ) * k) (c.max_points : ℚ) := by
  rintro ⟨k, hk, hall⟩
  have h := hall "a" crit3 (by with_unfolding_all decide) (by with_unfolding_all decide)
  have hz := earned_eq_zero_of_generic "a" crit3 (by with_unfolding_all decide) (by with_unfolding_all decide)
  rw [hz] at h
  have hw : wordCount "a".data = 1 := rfl
  rw [hw] at h
  push_cast at h
  rw [one_mul] at h
  have hpos : (0 : ℚ) < min k (crit3.max_points : ℚ) :=
    lt_min hk (by norm_num [crit3])
  rw [← h] at hpos
  exact lt_irrefl 0 hpos

/-- C2 amended: every criterion without a dedicated heuristic (ids 3, 5,
6, 7, 8, 9, 12) is scored by the generic branch
`min(relevant_terms * 1.0, max_points)`, where `relevant_terms` is read
from the feature key `criterion_<id>_terms`; that key is never produced,
so the earned points are always 0 (not proportional to the word count). -/
theorem claim_C2_amended_generic_always_zero (text : String)
    (c : EvaluationCriterion) (hc : c ∈ initializeCriteria)
    (hid : c.id ∉ ([1, 2, 4, 10, 11] : List Nat)) :
    (evaluateCriterionWithRules c text
      (performComprehensiveAnalysis text)).earned_points = 0 :=
  earned_eq_zero_of_generic text c hc hid

/-- Witness for the amended C2: criterion 3 of the grid on the empty
string. -/
theorem claim_C2_amended_witness :
    ((initializeCriteria.getD 2 default ∈ initializeCriteria) ∧
      (initializeCriteria.getD 2 default).id ∉ ([1, 2, 4, 10, 11] : List Nat)) ∧
    (evaluateCriterionWithRules (initializeCriteria.getD 2 default) ""
      (performComprehensiveAnalysis "")).earned_points = 0 :=
  ⟨⟨by with_unfolding_all decide, by with_unfolding_all decide⟩,
   claim_C2_amended_generic_always_zero "" _ (by with_unfolding_all decide) (by with_unfolding_all decide)⟩

/-- C3 counterexample: no input text whatsoever scores strictly above the
60-point threshold (the existential half of the claim fails: the
reachable maximum is 55). -/
theorem claim_C3_counterexample :
    ¬ ∃ text : String, 60 < (analyzeWithRules text).total_score := by
  rintro ⟨text, h⟩
  have hle := totalScore_le_55 text
  linarith

/-- C3 amended: for every input text the total score is at most 55, hence
below the 60-point threshold (so no keyword-dense plan can be eligible);
an empty document scores exactly 0 and is not eligible. -/
theorem claim_C3_amended_bounded_and_empty_zero :
    (∀ text : String, (analyzeWithRules text).total_score ≤ 55) ∧
    (analyzeWithRules "").total_score = 0 ∧
    (analyzeWithRules "").is_eligible = false :=
  ⟨totalScore_le_55, by with_unfolding_all decide, isEligible_false ""⟩

/-- C4: for every input text, `is_eligible` holds exactly when the total
score reaches 60, and the engine's threshold field is the constant 60. -/
theorem claim_C4_eligibility_iff_threshold (text : String) :
    ((analyzeWithRules text).is_eligible = true ↔
      (60 : ℚ) ≤ (analyzeWithRules text).total_score) ∧
    (analyzeWithRules text).threshold = 60 := by
  constructor
  · have hdef : (analyzeWithRules text).is_eligible =
        decide ((threshold : ℚ) ≤ (analyzeWithRules text).total_score) := rfl
    rw [hdef, decide_eq_true_eq]
    norm_num [threshold]
  · rfl

/-- C5: for every input text, the analysis contains exactly 12 criterion
results and their earned points sum to the total score. -/
theorem claim_C5_twelve_results_sum_total (text : String) :
    (analyzeWithRules text).criteria_results.length = 12 ∧
    ((analyzeWithRules text).criteria_results.map
      (fun r => r.earned_points)).sum = (analyzeWithRules text).total_score :=
  ⟨rfl, rfl⟩

/-- C6: every criterion result of the rule-based analysis satisfies
`0 ≤ earned_points ≤ max_points`, and the maxima of the 12 static
criteria sum to exactly 100. -/
theorem claim_C6_bounds_and_max_sum (text : String) (cr : EvaluationResult)
    (hmem : cr ∈ (analyzeWithRules text).criteria_results) :
    (0 ≤ cr.earned_points ∧ cr.earned_points ≤ (cr.max_points : ℚ)) ∧
    (initializeCriteria.map (fun c => c.max_points)).sum = 100 := by
  obtain ⟨c, hc, rfl⟩ := mem_criteria_results text hmem
  exact ⟨⟨earned_nonneg c text _, earned_le_max c text _⟩, by with_unfolding_all decide⟩

/-- Witness for C6: the first criterion result of the analysis of the
empty string. -/
theorem claim_C6_witness :
    ((analyzeWithRules "").criteria_results.getD 0 default ∈
      (analyzeWithRules "").criteria_results) ∧
    ((0 ≤ ((analyzeWithRules "").criteria_results.getD 0 default).earned_points ∧
      ((analyzeWithRules "").criteria_results.getD 0 default).earned_points ≤
        ((((analyzeWithRules "").criteria_results.getD 0 default).max_points : Nat) : ℚ)) ∧
      (initializeCriteria.map (fun c => c.max_points)).sum = 100) :=
  ⟨by with_unfolding_all decide, claim_C6_bounds_and_max_sum "" _ (by with_unfolding_all decide)⟩

/-- C7: each sub-score of a criterion result earns exactly the criterion's
earned points times `sub.max_points / criterion.max_points` (proportional
distribution), and the sub-scores sum back to the criterion's earned
points (exactly, in rational arithmetic). -/
theorem claim_C7_proportional_subscores (text : String)
    (cr : EvaluationResult) (s : SubScore)
    (hmem : cr ∈ (analyzeWithRules text).criteria_results)
    (hs : s ∈ cr.sub_scores) :
    s.earned_points =
      cr.earned_points * (s.max_points : ℚ) / (cr.max_points : ℚ) ∧
    (cr.sub_scores.map (fun t => t.earned_points)).sum = cr.earned_points := by
  obtain ⟨c, hc, rfl⟩ := mem_criteria_results text hmem
  obtain ⟨hsum, hpos, -, -⟩ := criteria_wf c hc
  have hne : ((c.max_points : Nat) : ℚ) ≠ 0 := Nat.cast_ne_zero.mpr hpos.ne'
  constructor
  · rw [evaluate_sub_scores] at hs
    obtain ⟨sub, hsub, rfl⟩ := List.mem_map.mp hs
    show (evaluateCriterionWithRules c text
        (performComprehensiveAnalysis text)).earned_points /
      ((c.max_points : Nat) : ℚ) * ((sub.points : Nat) : ℚ) = _
    rw [div_mul_eq_mul_div]
    rfl
  · rw [evaluate_sub_scores, List.map_map]
    show (c.sub_criteria.map (fun sub =>
      (evaluateCriterionWithRules c text
        (performComprehensiveAnalysis text)).earned_points /
        ((c.max_points : Nat) : ℚ) * ((sub.points : Nat) : ℚ))).sum = _
    rw [List.sum_map_mul_left]
    have hcast : (c.sub_criteria.map
        (fun sub => ((sub.points : Nat) : ℚ))).sum = ((c.max_points : Nat) : ℚ) := by
      have hq := congrArg (fun n : Nat => (n : ℚ)) hsum
      push_cast at hq
      simpa using hq
    rw [hcast, div_mul_cancel₀ _ hne]

/-- Witness for C7: the first sub-score of the first criterion result of
the analysis of the empty string. -/
theorem claim_C7_witness :
    ((analyzeWithRules "").criteria_results.getD 0 default ∈
        (analyzeWithRules "").criteria_results) ∧
    (((analyzeWithRules "").criteria_results.getD 0 default).sub_scores.getD 0 default ∈
        ((analyzeWithRules "").criteria_results.getD 0 default).sub_scores) ∧
    ((((analyzeWithRules "").criteria_results.getD 0 default).sub_scores.getD 0 default).earned_points =
        ((analyzeWithRules "").criteria_results.getD 0 default).earned_points *
          (((((analyzeWithRules "").criteria_results.getD 0 default).sub_scores.getD 0 default).max_points : Nat) : ℚ) /
          ((((analyzeWithRules "").criteria_results.getD 0 default).max_points : Nat) : ℚ) ∧
      (((analyzeWithRules "").criteria_results.getD 0 default).sub_scores.map
        (fun t => t.earned_points)).sum =
        ((analyzeWithRules "").criteria_results.getD 0 default).earned_points) :=
  ⟨by with_unfolding_all decide, by with_unfolding_all decide, claim_C7_proportional_subscores "" _ _ (by with_unfolding_all decide) (by with_unfolding_all decide)⟩

/-! ### Helper lemmas for the recommendation generator -/

/-- The priority label is one of four non-empty literals. -/
theorem priorityOf_ne_empty (w : WeakCriterion) : priorityOf w ≠ "" := by
  unfold priorityOf
  split_ifs <;> decide

/-- Appending to a non-empty string yields a non-empty string. -/
theorem append_ne_left {a : String} (h : a ≠ "") (b : String) :
    a ++ b ≠ "" := by
  intro hab
  apply h
  apply String.ext
  have hd := congrArg String.data hab
  rw [String.data_append] at hd
  exact (List.append_eq_nil.mp hd).1

/-- For every criterion id in 1..12, `_generate_specific_recommendation`
has a template and produces a non-empty string (so Python's `if rec:`
guard never drops a recommendation in the pipeline). -/
theorem specRec_some (w : WeakCriterion) (d : AnalysisData)
    (h1 : 1 ≤ w.id) (h2 : w.id ≤ 12) :
    ∃ s, generateSpecificRecommendation w d = some s ∧ s ≠ "" := by
  obtain ⟨i, nm, pf, pt, mx⟩ := w
  dsimp only at h1 h2
  interval_cases i <;>
    exact ⟨_, rfl,
      append_ne_left (append_ne_left (append_ne_left
        (append_ne_left (priorityOf_ne_empty _) _) _) _) _⟩

/-- The sort comparison is transitive. -/
theorem weakLe_trans : ∀ a b c : WeakCriterion,
    weakLe a b → weakLe b c → weakLe a c := by
  intro a b c hab hbc
  simp only [weakLe, decide_eq_true_eq] at hab hbc ⊢
  rcases hab with h1 | ⟨he1, h2⟩ <;> rcases hbc with h3 | ⟨he3, h4⟩ <;>
    first
      | exact Or.inl (by linarith)
      | exact Or.inr ⟨by linarith, by linarith⟩

/-- The sort comparison is total. -/
theorem weakLe_total : ∀ a b : WeakCriterion, weakLe a b || weakLe b a := by
  intro a b
  simp only [weakLe, Bool.or_eq_true, decide_eq_true_eq]
  rcases lt_trichotomy (weakKey1 a) (weakKey1 b) with h | h | h
  · exact Or.inr (Or.inl h)
  · rcases le_total (weakKey2 a) (weakKey2 b) with h2 | h2
    · exact Or.inr (Or.inr ⟨h.symm, h2⟩)
    · exact Or.inl (Or.inr ⟨h, h2⟩)
  · exact Or.inl (Or.inl h)

/-- Every criterion result of the pipeline has a positive maximum. -/
theorem results_max_pos (text : String) (cr : EvaluationResult)
    (h : cr ∈ (analyzeWithRules text).criteria_results) :
    0 < cr.max_points := by
  obtain ⟨c, hc, rfl⟩ := mem_criteria_results text h
  obtain ⟨-, hpos, -, -⟩ := criteria_wf c hc
  exact hpos

/-- Every weak criterion built from the pipeline's results carries an id
in 1..12. -/
theorem weak_mem_id_bounds (text : String) :
    ∀ w ∈ sortWeak (weakCriteriaOf (analyzeWithRules text).criteria_results),
      1 ≤ w.id ∧ w.id ≤ 12 := by
  intro w hw
  rw [sortWeak, List.mem_mergeSort, weakCriteriaOf] at hw
  obtain ⟨cr, hcr, rfl⟩ := List.mem_map.mp hw
  obtain ⟨c, hc, rfl⟩ := mem_criteria_results text (List.mem_of_mem_filter hcr)
  obtain ⟨-, -, hlo, hhi⟩ := criteria_wf c hc
  exact ⟨hlo, hhi⟩

/-- When every element of the list has a non-empty specific
recommendation, the `if rec:`-guarded collection is a plain `map`. -/
theorem filterMap_spec_eq_map (d : AnalysisData) (l : List WeakCriterion)
    (h : ∀ w ∈ l, ∃ s, generateSpecificRecommendation w d = some s ∧ s ≠ "") :
    l.filterMap (fun w => (generateSpecificRecommendation w d).filter
      (fun s => decide (s ≠ ""))) =
    l.map (fun w => (generateSpecificRecommendation w d).getD "") := by
  induction l with
  | nil => rfl
  | cons a t ih =>
    obtain ⟨s, hs, hne⟩ := h a (List.mem_cons_self a t)
    have hfa : (generateSpecificRecommendation a d).filter
        (fun s => decide (s ≠ "")) = some s := by
      rw [hs]
      simp [Option.filter, hne]
    rw [List.filterMap_cons, hfa, List.map_cons, hs, Option.getD_some,
      ih (fun w hw => h w (List.mem_cons_of_mem a hw))]

/-- The recommendation pipeline, rewritten with the specific
recommendations as a total `map` (justified by `specRec_some`): top 5 of
the sorted weak criteria, general recommendations appended exactly when
fewer than 3 specific ones were produced, truncated to 6. -/
theorem genRecs_eq (rs : List EvaluationResult) (d : AnalysisData)
    (hids : ∀ w ∈ sortWeak (weakCriteriaOf rs), 1 ≤ w.id ∧ w.id ≤ 12) :
    generateRuleBasedRecommendations rs d =
      ((((sortWeak (weakCriteriaOf rs)).take 5).map
          (fun w => (generateSpecificRecommendation w d).getD "")) ++
        (if (((sortWeak (weakCriteriaOf rs)).take 5).map
            (fun w => (generateSpecificRecommendation w d).getD "")).length < 3
         then generateGeneralRecommendations d rs else [])).take 6 := by
  have hmap : ((sortWeak (weakCriteriaOf rs)).take 5).filterMap (fun w =>
      (generateSpecificRecommendation w d).filter (fun s => decide (s ≠ ""))) =
      ((sortWeak (weakCriteriaOf rs)).take 5).map
        (fun w => (generateSpecificRecommendation w d).getD "") := by
    apply filterMap_spec_eq_map
    intro w hw
    obtain ⟨hb1, hb2⟩ := hids w (List.take_subset 5 _ hw)
    exact specRec_some w d hb1 hb2
  simp only [generateRuleBasedRecommendations]
  rw [hmap]
  split_ifs with h
  · rfl
  · rw [List.append_nil]

/-- C8: for every input, the recommendation list has at most 6 entries;
a criterion is marked weak exactly when `earned / max * 100 < 70`; the
weak criteria are sorted by `max_points * (70 - performance)` descending
with ties broken by larger `max_points`; the top 5 give the specific
recommendations; and general recommendations are appended exactly when
fewer than 3 specific ones were produced. -/
theorem claim_C8_recommendation_generator (text : String) :
    (analyzeWithRules text).recommendations.length ≤ 6 ∧
    weakCriteriaOf (analyzeWithRules text).criteria_results =
      ((analyzeWithRules text).criteria_results.filter (fun cr =>
        decide (cr.earned_points / (cr.max_points : ℚ) * 100 < 70))).map
        toWeakCriterion ∧
    List.Pairwise (fun a b => weakKey1 b < weakKey1 a ∨
      (weakKey1 a = weakKey1 b ∧ weakKey2 b ≤ weakKey2 a))
      (sortWeak (weakCriteriaOf (analyzeWithRules text).criteria_results)) ∧
    (analyzeWithRules text).recommendations =
      ((((sortWeak (weakCriteriaOf (analyzeWithRules text).criteria_results)).take 5).map
          (fun w => (generateSpecificRecommendation w
            (performComprehensiveAnalysis text)).getD "")) ++
        (if (((sortWeak (weakCriteriaOf (analyzeWithRules text).criteria_results)).take 5).map
            (fun w => (generateSpecificRecommendation w
              (performComprehensiveAnalysis text)).getD "")).length < 3
         then generateGeneralRecommendations (performComprehensiveAnalysis text)
           (analyzeWithRules text).criteria_results
         else [])).take 6 := by
  have hrec : (analyzeWithRules text).recommendations =
      generateRuleBasedRecommendations (analyzeWithRules text).criteria_results
        (performComprehensiveAnalysis text) := rfl
  have hids := weak_mem_id_bounds text
  refine ⟨?_, ?_, ?_, ?_⟩
  · rw [hrec, genRecs_eq _ _ hids]
    exact List.length_take_le _ _
  · rw [weakCriteriaOf]
    congr 1
  · have hp := List.sorted_mergeSort weakLe_trans weakLe_total
      (weakCriteriaOf (analyzeWithRules text).criteria_results)
    rw [sortWeak]
    refine List.Pairwise.imp ?_ hp
    intro a b hab
    simpa [weakLe] using hab
  · rw [hrec, genRecs_eq _ _ hids]

/-- C9: on the empty string, the rule-based analysis returns a total
score of 0, is not eligible, and still produces a non-empty
recommendation list (all 12 criteria are weak, so 5 specific
recommendations are emitted); the model is a total function, so no
exception is possible. -/
theorem claim_C9_empty_string :
    (analyzeWithRules "").total_score = 0 ∧
    (analyzeWithRules "").is_eligible = false ∧
    (analyzeWithRules "").recommendations ≠ [] := by
  refine ⟨by with_unfolding_all decide, isEligible_false "", ?_⟩
  have hrec : (analyzeWithRules "").recommendations =
      generateRuleBasedRecommendations (analyzeWithRules "").criteria_results
        (performComprehensiveAnalysis "") := rfl
  rw [hrec, genRecs_eq _ _ (weak_mem_id_bounds "")]
  have hw : (weakCriteriaOf (analyzeWithRules "").criteria_results).length = 12 := by
    with_unfolding_all decide
  have hs : (sortWeak (weakCriteriaOf (analyzeWithRules "").criteria_results)).length = 12 := by
    rw [sortWeak, List.length_mergeSort, hw]
  have hmaplen : (((sortWeak (weakCriteriaOf (analyzeWithRules "").criteria_results)).take 5).map
      (fun w => (generateSpecificRecommendation w
        (performComprehensiveAnalysis "")).getD "")).length = 5 := by
    rw [List.length_map, List.length_take, hs]
    omega
  rw [hmaplen, if_neg (by norm_num : ¬ (5 < 3)), List.append_nil]
  apply List.ne_nil_of_length_pos
  rw [List.length_take, hmaplen]
  omega

/-- C10 counterexample: on the empty string the feature
`sentence_count` is 1, not 0 (Python's `re.split(r'[.!?]+', "")` returns
one empty segment), refuting the claim that every numeric feature is
zero on the empty string. -/
theorem claim_C10_counterexample :
    getFeature (performComprehensiveAnalysis "") "sentence_count" ≠ 0 ∧
    getFeature (performComprehensiveAnalysis "") "sentence_count" = 1 := by
  decide

/-- C10 amended: the feature extractor is a total function, and on the
empty string every numeric feature is zero and `has_sections` is false,
except `sentence_count` which is 1 (splitting the empty string on
sentence delimiters yields one empty segment). -/
theorem claim_C10_amended_empty_features :
    getFeature (performComprehensiveAnalysis "") "text_length" = 0 ∧
    getFeature (performComprehensiveAnalysis "") "word_count" = 0 ∧
    getFeature (performComprehensiveAnalysis "") "sentence_count" = 1 ∧
    getFeature (performComprehensiveAnalysis "") "paragraph_count" = 0 ∧
    getFeature (performComprehensiveAnalysis "") "financial_terms" = 0 ∧
    getFeature (performComprehensiveAnalysis "") "market_terms" = 0 ∧
    getFeature (performComprehensiveAnalysis "") "strategy_terms" = 0 ∧
    getFeature (performComprehensiveAnalysis "") "team_terms" = 0 ∧
    getFeature (performComprehensiveAnalysis "") "product_terms" = 0 ∧
    getFeature (performComprehensiveAnalysis "") "risk_terms" = 0 ∧
    (performComprehensiveAnalysis "").lookup "has_sections" =
      some (FeatureValue.bool false) ∧
    getFeature (performComprehensiveAnalysis "") "has_numbers" = 0 ∧
    getFeature (performComprehensiveAnalysis "") "has_percentages" = 0 ∧
    getFeature (performComprehensiveAnalysis "") "has_currency" = 0 ∧
    getFeature (performComprehensiveAnalysis "") "professional_terms" = 0 ∧
    getFeature (performComprehensiveAnalysis "") "positive_sentiment" = 0 ∧
    getFeature (performComprehensiveAnalysis "") "negative_sentiment" = 0 := by
  decide
